import Mathlib

/-!
Verification of the meal_max catalog-and-battle application.

The kitchen model (`create_meal`, `delete_meal`, `get_leaderboard`,
`update_meal_stats`) is embedded from
`meal_max/models/kitchen_model.py`, with the SQLite table modelled as a
list of rows and each operation as a pure function returning
`Except KitchenError`.  The random-source client is embedded from
`meal_max/utils/random_utils.py`, with the HTTP transport outcome as an
explicit argument.  The battle engine (`battle_model.py`) does not ship
in the repository sources (only its test suite does), so its operations
are modelled from the specification, as their doc comments note.
-/

namespace MealMax

/-- A meal record as held by the battle engine, mirroring the `Meal`
dataclass of `kitchen_model.py` (id, meal, cuisine, price, difficulty).
Prices are modelled as rationals. -/
structure Meal where
  id : Nat
  meal : String
  cuisine : String
  price : ℚ
  difficulty : String
deriving DecidableEq, Repr

/-- A row of the `meals` table: the dataclass fields together with the
`deleted`, `battles` and `wins` columns. -/
structure MealRow where
  id : Nat
  meal : String
  cuisine : String
  price : ℚ
  difficulty : String
  deleted : Bool
  battles : Nat
  wins : Nat
deriving DecidableEq, Repr

/-- The database state: the list of rows of the `meals` table. -/
abbrev DB := List MealRow

/-- The distinct `ValueError` conditions raised by the kitchen model. -/
inductive KitchenError where
  | invalidPrice (p : Option ℚ)
  | invalidDifficulty (d : String)
  | duplicateName (m : String)
  | notFound (id : Nat)
  | alreadyDeleted (id : Nat)
  | invalidResult (r : String)
  | invalidSortBy (s : String)
deriving DecidableEq, Repr

/-- `SELECT ... FROM meals WHERE id = ?` followed by `fetchone()`:
the first row whose `id` column matches. -/
def findMeal (db : DB) (meal_id : Nat) : Option MealRow :=
  db.find? (fun r => r.id == meal_id)

/-- The id the store assigns to a freshly inserted row: one past the
largest id present. -/
def nextId (db : DB) : Nat :=
  db.foldr (fun r acc => max r.id acc) 0 + 1

/-- `create_meal` of `kitchen_model.py`.  The price argument is
`Option ℚ`: `none` models a Python value that is not an `int`/`float`,
so that `not isinstance(price, (int, float)) or price <= 0` is the
first check; the difficulty check follows, both before any database
access.  Modelled from the spec: the inserted row's defaults
`battles=0, wins=0, deleted=false` and the uniqueness of the name come
from the schema file `create_meal_table.sql`, which is not among the
sources. -/
def create_meal (db : DB) (meal : String) (cuisine : String)
    (price : Option ℚ) (difficulty : String) : Except KitchenError DB :=
  match price with
  | none => .error (.invalidPrice none)
  | some p =>
    if p ≤ 0 then
      .error (.invalidPrice (some p))
    else if difficulty = "LOW" ∨ difficulty = "MED" ∨ difficulty = "HIGH" then
      if db.any (fun r => r.meal == meal) then
        .error (.duplicateName meal)
      else
        .ok (db ++ [⟨nextId db, meal, cuisine, p, difficulty, false, 0, 0⟩])
    else
      .error (.invalidDifficulty difficulty)

/-- Effect of `UPDATE meals SET deleted = TRUE WHERE id = ?` on one
row. -/
def markDeletedRow (meal_id : Nat) (r : MealRow) : MealRow :=
  if r.id = meal_id then { r with deleted := true } else r

/-- Effect of
`UPDATE meals SET battles = battles + 1, wins = wins + 1 WHERE id = ?`
on one row. -/
def incWinRow (meal_id : Nat) (r : MealRow) : MealRow :=
  if r.id = meal_id then
    { r with battles := r.battles + 1, wins := r.wins + 1 }
  else r

/-- Effect of `UPDATE meals SET battles = battles + 1 WHERE id = ?` on
one row. -/
def incLossRow (meal_id : Nat) (r : MealRow) : MealRow :=
  if r.id = meal_id then { r with battles := r.battles + 1 } else r

/-- `delete_meal` of `kitchen_model.py`: looks the row up (`fetchone`
on a `None` result raises `TypeError`, translated to "not found"),
rejects an already-deleted row, and otherwise runs
`UPDATE meals SET deleted = TRUE WHERE id = ?`. -/
def delete_meal (db : DB) (meal_id : Nat) : Except KitchenError DB :=
  match findMeal db meal_id with
  | none => .error (.notFound meal_id)
  | some row =>
    if row.deleted then
      .error (.alreadyDeleted meal_id)
    else
      .ok (db.map (markDeletedRow meal_id))

/-- `update_meal_stats` of `kitchen_model.py`: the existence/deleted
check runs first (it is issued as a `SELECT` before the outcome string
is inspected); then `"win"` increments `battles` and `wins`, `"loss"`
increments `battles`, and anything else raises the invalid-result
error without executing an `UPDATE`. -/
def update_meal_stats (db : DB) (meal_id : Nat) (result : String) :
    Except KitchenError DB :=
  match findMeal db meal_id with
  | none => .error (.notFound meal_id)
  | some row =>
    if row.deleted then
      .error (.alreadyDeleted meal_id)
    else if result = "win" then
      .ok (db.map (incWinRow meal_id))
    else if result = "loss" then
      .ok (db.map (incLossRow meal_id))
    else
      .error (.invalidResult result)

/-- Round-half-to-even of a rational to the nearest integer, the
rounding Python's builtin `round` performs. -/
def roundHalfEven (q : ℚ) : ℤ :=
  let f : ℚ := q - (⌊q⌋ : ℚ)
  if f < 1 / 2 then ⌊q⌋
  else if 1 / 2 < f then ⌊q⌋ + 1
  else if ⌊q⌋ % 2 = 0 then ⌊q⌋ else ⌊q⌋ + 1

/-- Python's `round(q, 1)`: round to one decimal place. -/
def pyRound1 (q : ℚ) : ℚ :=
  (roundHalfEven (q * 10) : ℚ) / 10

/-- One leaderboard entry, mirroring the dict built per row by
`get_leaderboard`. -/
structure LBEntry where
  id : Nat
  meal : String
  cuisine : String
  price : ℚ
  difficulty : String
  battles : Nat
  wins : Nat
  win_pct : ℚ
deriving DecidableEq, Repr

/-- The raw SQL expression `wins * 1.0 / battles` of the leaderboard
query, the key the `ORDER BY win_pct DESC` branch sorts on. -/
def entryPct (e : LBEntry) : ℚ :=
  (e.wins : ℚ) / (e.battles : ℚ)

/-- The annotated dict built for one fetched row: the row's columns
plus `round(win_pct * 100, 1)`. -/
def toEntry (r : MealRow) : LBEntry :=
  ⟨r.id, r.meal, r.cuisine, r.price, r.difficulty, r.battles, r.wins,
    pyRound1 ((r.wins : ℚ) / (r.battles : ℚ) * 100)⟩

/-- Descending comparison on the `wins` column (`ORDER BY wins DESC`). -/
def byWins (a b : LBEntry) : Prop := b.wins ≤ a.wins

/-- Descending comparison on the raw win percentage
(`ORDER BY win_pct DESC`). -/
def byPct (a b : LBEntry) : Prop := entryPct b ≤ entryPct a

instance : DecidableRel byWins := fun a b =>
  inferInstanceAs (Decidable (b.wins ≤ a.wins))

instance : DecidableRel byPct := fun a b =>
  inferInstanceAs (Decidable (entryPct b ≤ entryPct a))

instance : IsTotal LBEntry byWins :=
  ⟨fun a b => (le_total b.wins a.wins).imp id id⟩

instance : IsTrans LBEntry byWins :=
  ⟨fun _ _ _ hab hbc => le_trans hbc hab⟩

instance : IsTotal LBEntry byPct :=
  ⟨fun a b => (le_total (entryPct b) (entryPct a)).imp id id⟩

instance : IsTrans LBEntry byPct :=
  ⟨fun _ _ _ hab hbc => le_trans hbc hab⟩

/-- The rows the leaderboard query selects:
`WHERE deleted = false AND battles > 0`. -/
def lbRows (db : DB) : List MealRow :=
  db.filter (fun r => !r.deleted && decide (0 < r.battles))

/-- `get_leaderboard` of `kitchen_model.py`: the sort key is validated
while the query string is being built, before any database access;
`"win_pct"` sorts descending on the raw percentage, `"wins"` sorts
descending on the wins column, anything else raises the invalid-sort
error. -/
def get_leaderboard (db : DB) (sort_by : String) :
    Except KitchenError (List LBEntry) :=
  if sort_by = "win_pct" then
    .ok (List.insertionSort byPct ((lbRows db).map toEntry))
  else if sort_by = "wins" then
    .ok (List.insertionSort byWins ((lbRows db).map toEntry))
  else
    .error (.invalidSortBy sort_by)

/-- The outcome of the one outbound HTTP GET issued by `get_random`:
a timeout, another transport failure (carrying its message), or a
response with a status code and a body. -/
inductive HttpOutcome where
  | timeout
  | transportError (cause : String)
  | response (status : Nat) (body : String)
deriving DecidableEq, Repr

/-- The errors `get_random` of `random_utils.py` raises: the
`RuntimeError` for a timeout, the `RuntimeError` carrying the
underlying cause for other transport failures (`raise_for_status`
included), and the `ValueError` carrying the body text when it does
not parse as a decimal number. -/
inductive RandomError where
  | timedOut
  | requestFailed (cause : String)
  | invalidResponse (body : String)
deriving DecidableEq, Repr

/-- Value of a digit string read in base 10. -/
def digitsVal (cs : List Char) : Nat :=
  cs.foldl (fun n c => 10 * n + (c.toNat - 48)) 0

/-- Parse a plain decimal number, the way Python's `float` reads the
bodies random.org serves (optional sign, digits, optional fractional
part); returns `none` when the text is not a decimal number. -/
def parseDecimal (s : String) : Option ℚ :=
  let cs := s.toList
  let signed : ℚ × List Char :=
    match cs with
    | '-' :: t => (-1, t)
    | '+' :: t => (1, t)
    | t => (1, t)
  let intPart := signed.2.takeWhile Char.isDigit
  let rest := signed.2.dropWhile Char.isDigit
  match rest with
  | [] =>
    if intPart.isEmpty then none
    else some (signed.1 * (digitsVal intPart : ℚ))
  | '.' :: frac =>
    if frac.all Char.isDigit && !(intPart.isEmpty && frac.isEmpty) then
      some (signed.1 *
        ((digitsVal intPart : ℚ) + (digitsVal frac : ℚ) / 10 ^ frac.length))
    else none
  | _ => none

/-- Python's `str.strip()`: drop leading and trailing whitespace. -/
def pyStrip (s : String) : String :=
  ⟨((s.toList.dropWhile Char.isWhitespace).reverse.dropWhile
      Char.isWhitespace).reverse⟩

/-- `get_random` of `random_utils.py`, with the transport outcome as an
argument: a timeout raises the timed-out error; any other transport
failure (a 4xx/5xx status via `raise_for_status` included) raises the
request-failed error; otherwise the body is stripped and parsed, an
unparseable body raising the invalid-response error carrying the
stripped text, and a parseable one returning the parsed value. -/
def get_random (out : HttpOutcome) : Except RandomError ℚ :=
  match out with
  | .timeout => .error .timedOut
  | .transportError cause => .error (.requestFailed cause)
  | .response status body =>
    if 400 ≤ status then
      .error (.requestFailed ("HTTP error " ++ toString status))
    else
      match parseDecimal (pyStrip body) with
      | none => .error (.invalidResponse (pyStrip body))
      | some q => .ok q

/-- Modelled from the spec: the battle engine's state, an in-memory
roster of combatants owned by one engine instance (`battle_model.py`
is not among the sources; only its tests are). -/
structure BattleModel where
  combatants : List Meal
deriving DecidableEq, Repr

/-- The `ValueError` conditions of the battle engine, as its test
suite spells them: the full-roster error of `prep_combatant` and the
two-combatants-required error of `battle`. -/
inductive BattleError where
  | rosterFull
  | twoCombatantsRequired
deriving DecidableEq, Repr

/-- Modelled from the spec: `get_battle_score` is
`price × len(cuisine) − 3`, the literal formula the test suite encodes
as ground truth, with no per-difficulty modifier. -/
def get_battle_score (m : Meal) : ℚ :=
  m.price * (m.cuisine.length : ℚ) - 3

/-- Modelled from the spec: `prep_combatant` appends to the roster and
signals the roster-full error when the roster already has two
entries. -/
def prep_combatant (b : BattleModel) (m : Meal) :
    Except BattleError BattleModel :=
  if 2 ≤ b.combatants.length then
    .error .rosterFull
  else
    .ok ⟨b.combatants ++ [m]⟩

/-- Modelled from the spec: `clear_combatants` empties the roster. -/
def clear_combatants (_ : BattleModel) : BattleModel := ⟨[]⟩

/-- Modelled from the spec: `get_combatants` returns the roster. -/
def get_combatants (b : BattleModel) : List Meal := b.combatants

/-- The observable side effects of a `battle` call: the one random
draw it fetches and the stat updates it sends to the record store. -/
inductive StoreEvent where
  | getRandom (r : ℚ)
  | updateStats (id : Nat) (result : String)
deriving DecidableEq, Repr

/-- Modelled from the spec: `battle` requires exactly two roster
entries, else signals the two-combatants-required error having
performed no effect; with combatants `c1, c2` of scores `s1, s2` it
computes the normalized delta `|s1 − s2| / 100`, fetches one random
draw, declares the higher scorer the winner when the draw is below the
delta and the lower scorer otherwise (on equal scores the first entry
counts as the higher), records a win for the winner's id and a loss
for the loser's id, leaves only the winner on the roster and returns
the winner's name.  The draw the random source would deliver is the
`draw` argument; the effects are returned as an event trace. -/
def battle (b : BattleModel) (draw : ℚ) :
    Except BattleError (String × BattleModel) × List StoreEvent :=
  match b.combatants with
  | [c1, c2] =>
    let s1 := get_battle_score c1
    let s2 := get_battle_score c2
    let delta := |s1 - s2| / 100
    let wl : Meal × Meal :=
      if draw < delta then
        if s2 ≤ s1 then (c1, c2) else (c2, c1)
      else
        if s2 ≤ s1 then (c2, c1) else (c1, c2)
    (.ok (wl.1.meal, ⟨[wl.1]⟩),
      [.getRandom draw, .updateStats wl.1.id "win",
        .updateStats wl.2.id "loss"])
  | _ => (.error .twoCombatantsRequired, [])

/-- The burger meal of the end-to-end battle scenario. -/
def burgerMeal : Meal := ⟨1, "burger", "american", 5, "LOW"⟩

/-- The pizza meal of the end-to-end battle scenario. -/
def pizzaMeal : Meal := ⟨2, "pizza", "Italian", 2, "MED"⟩

/-- A sample live table row with three battles and one win. -/
def rowA : MealRow := ⟨1, "alpha", "american", 5, "LOW", false, 3, 1⟩

/-- A sample soft-deleted table row. -/
def rowDel : MealRow := ⟨6, "gone", "Italian", 2, "MED", true, 3, 1⟩

/-- C2: the battle score is exactly `price × len(cuisine) − 3`, a
function of price and cuisine only (no per-difficulty modifier), with
score 37 for the burger meal and 11 for the pizza meal. -/
theorem get_battle_score_spec :
    (∀ m : Meal, get_battle_score m = m.price * (m.cuisine.length : ℚ) - 3) ∧
    (∀ (i1 i2 : Nat) (n1 n2 c : String) (p : ℚ) (d1 d2 : String),
      get_battle_score ⟨i1, n1, c, p, d1⟩ = get_battle_score ⟨i2, n2, c, p, d2⟩) ∧
    (∀ (i : Nat) (d : String), get_battle_score ⟨i, "burger", "american", 5, d⟩ = 37) ∧
    (∀ (i : Nat) (d : String), get_battle_score ⟨i, "pizza", "Italian", 2, d⟩ = 11) := by
  have h8 : "american".length = 8 := rfl
  have h7 : "Italian".length = 7 := rfl
  refine ⟨fun m => rfl, fun i1 i2 n1 n2 c p d1 d2 => rfl, fun i d => ?_, fun i d => ?_⟩
  · norm_num [get_battle_score, h8]
  · norm_num [get_battle_score, h7]

/-- C1: with two combatants of distinct scores, `battle` fetches one
draw, declares the higher scorer the winner exactly when the draw is
below the normalized delta `|s1 − s2| / 100` and the lower scorer
otherwise, records a win for the winner's id and a loss for the
loser's id, and keeps only the winner on the roster; concretely, with
burger (score 37, id 1) and pizza (score 11, id 2) and a forced draw
of 0.1, burger wins, the roster becomes `[burger]`, and the store
receives a win for id 1 and a loss for id 2. -/
theorem battle_spec :
    (∀ (c1 c2 hi lo : Meal) (r : ℚ),
      get_battle_score lo < get_battle_score hi →
      (c1 = hi ∧ c2 = lo) ∨ (c1 = lo ∧ c2 = hi) →
      battle ⟨[c1, c2]⟩ r =
        if r < |get_battle_score c1 - get_battle_score c2| / 100 then
          (.ok (hi.meal, ⟨[hi]⟩),
            [.getRandom r, .updateStats hi.id "win", .updateStats lo.id "loss"])
        else
          (.ok (lo.meal, ⟨[lo]⟩),
            [.getRandom r, .updateStats lo.id "win", .updateStats hi.id "loss"])) ∧
    battle ⟨[burgerMeal, pizzaMeal]⟩ (1 / 10) =
      (.ok ("burger", ⟨[burgerMeal]⟩),
        [.getRandom (1 / 10), .updateStats 1 "win", .updateStats 2 "loss"]) := by
  constructor
  · rintro c1 c2 hi lo r h (⟨rfl, rfl⟩ | ⟨rfl, rfl⟩)
    · have hle : get_battle_score c2 ≤ get_battle_score c1 := le_of_lt h
      by_cases hr : r < |get_battle_score c1 - get_battle_score c2| / 100
      · simp [battle, hr, hle]
      · simp [battle, hr, hle]
    · have hnle : ¬ get_battle_score c2 ≤ get_battle_score c1 := not_le.mpr h
      by_cases hr : r < |get_battle_score c1 - get_battle_score c2| / 100
      · simp [battle, hr, hnle]
      · simp [battle, hr, hnle]
  · have h8 : "american".length = 8 := rfl
    have h7 : "Italian".length = 7 := rfl
    norm_num [battle, get_battle_score, burgerMeal, pizzaMeal, h8, h7]

/-- Witness for C1: the general rule applied to the roster
`[pizza, burger]` with a draw of 0.3, which lies above the delta 0.26,
so the lower scorer pizza (id 2) wins. -/
theorem battle_spec_witness :
    battle ⟨[pizzaMeal, burgerMeal]⟩ (3 / 10) =
      (.ok ("pizza", ⟨[pizzaMeal]⟩),
        [.getRandom (3 / 10), .updateStats 2 "win", .updateStats 1 "loss"]) := by
  have h8 : "american".length = 8 := rfl
  have h7 : "Italian".length = 7 := rfl
  have h : get_battle_score pizzaMeal < get_battle_score burgerMeal := by
    norm_num [get_battle_score, burgerMeal, pizzaMeal, h8, h7]
  have hmain :=
    battle_spec.1 pizzaMeal burgerMeal burgerMeal pizzaMeal (3 / 10) h
      (Or.inr ⟨rfl, rfl⟩)
  rw [hmain]
  norm_num [get_battle_score, burgerMeal, pizzaMeal, h8, h7]

/-- C4: the roster never exceeds two combatants: `prep_combatant`
appends when fewer than two entries are held and signals the
roster-full error when two are already held, and every engine
operation (`prep_combatant`, `clear_combatants`, `battle`) preserves
the length bound of 2. -/
theorem roster_bound_invariant :
    (∀ (b : BattleModel) (m : Meal), b.combatants.length < 2 →
      prep_combatant b m = .ok ⟨b.combatants ++ [m]⟩) ∧
    (∀ (b : BattleModel) (m : Meal), 2 ≤ b.combatants.length →
      prep_combatant b m = .error .rosterFull) ∧
    (∀ (b b' : BattleModel) (m : Meal), b.combatants.length ≤ 2 →
      prep_combatant b m = .ok b' → b'.combatants.length ≤ 2) ∧
    (∀ b : BattleModel, (clear_combatants b).combatants.length ≤ 2) ∧
    (∀ (b b' : BattleModel) (r : ℚ) (n : String) (evs : List StoreEvent),
      battle b r = (.ok (n, b'), evs) → b'.combatants.length ≤ 2) := by
  refine ⟨?_, ?_, ?_, ?_, ?_⟩
  · intro b m hlt
    simp [prep_combatant, not_le.mpr hlt]
  · intro b m hge
    simp [prep_combatant, hge]
  · intro b b' m hle hok
    by_cases h2 : 2 ≤ b.combatants.length
    · simp [prep_combatant, h2] at hok
    · simp [prep_combatant, h2] at hok
      rw [← hok]
      simp
      omega
  · intro b
    simp [clear_combatants]
  · intro b b' r n evs h
    obtain ⟨l⟩ := b
    rcases l with _ | ⟨c1, _ | ⟨c2, _ | ⟨c3, t⟩⟩⟩
    · simp [battle] at h
    · simp [battle] at h
    · simp only [battle, Prod.mk.injEq, Except.ok.injEq] at h
      obtain ⟨⟨-, hb⟩, -⟩ := h
      rw [← hb]
      simp
    · simp [battle] at h

/-- Witness for C4: preparing a third combatant into the full roster
`[burger, pizza]` signals the roster-full error. -/
theorem roster_bound_invariant_witness :
    prep_combatant ⟨[burgerMeal, pizzaMeal]⟩ burgerMeal = .error .rosterFull :=
  roster_bound_invariant.2.1 ⟨[burgerMeal, pizzaMeal]⟩ burgerMeal (by simp)

/-- C5: `battle` on a roster with fewer than two combatants signals
the two-combatants-required error, with an empty event trace: no
random draw is fetched and no stat update is sent to the store. -/
theorem battle_requires_two (b : BattleModel) (r : ℚ)
    (h : b.combatants.length < 2) :
    battle b r = (.error .twoCombatantsRequired, []) := by
  obtain ⟨l⟩ := b
  rcases l with _ | ⟨c1, _ | ⟨c2, t⟩⟩
  · rfl
  · rfl
  · simp only [BattleModel.combatants, List.length_cons] at h
    omega

/-- Witness for C5: `battle` on the one-combatant roster `[burger]`
signals the two-combatants-required error and performs no effect. -/
theorem battle_requires_two_witness :
    battle ⟨[burgerMeal]⟩ (1 / 10) = (.error .twoCombatantsRequired, []) :=
  battle_requires_two ⟨[burgerMeal]⟩ (1 / 10) (by simp)

theorem markDeletedRow_id (meal_id : Nat) (r : MealRow) :
    (markDeletedRow meal_id r).id = r.id := by
  unfold markDeletedRow
  split <;> rfl

theorem incWinRow_id (meal_id : Nat) (r : MealRow) :
    (incWinRow meal_id r).id = r.id := by
  unfold incWinRow
  split <;> rfl

theorem incLossRow_id (meal_id : Nat) (r : MealRow) :
    (incLossRow meal_id r).id = r.id := by
  unfold incLossRow
  split <;> rfl

/-- `SELECT ... WHERE id = ?` on a table whose rows have been rewritten
by an id-preserving per-row update fetches the updated image of the row
it would have fetched before. -/
theorem findMeal_cons (r : MealRow) (t : List MealRow) (meal_id : Nat) :
    findMeal (r :: t) meal_id =
      if r.id = meal_id then some r else findMeal t meal_id := by
  by_cases hp : r.id = meal_id
  · rw [if_pos hp]
    exact List.find?_cons_of_pos _ (beq_iff_eq.mpr hp)
  · rw [if_neg hp]
    exact List.find?_cons_of_neg _ (by simpa using hp)

theorem findMeal_map (db : DB) (meal_id : Nat) (f : MealRow → MealRow)
    (hf : ∀ r, (f r).id = r.id) :
    findMeal (db.map f) meal_id = (findMeal db meal_id).map f := by
  induction db with
  | nil => rfl
  | cons r t ih =>
    rw [List.map_cons, findMeal_cons, findMeal_cons, hf r]
    by_cases hp : r.id = meal_id
    · rw [if_pos hp, if_pos hp, Option.map_some']
    · rw [if_neg hp, if_neg hp, ih]

/-- A fetched row carries the id it was fetched by. -/
theorem findMeal_id {db : DB} {meal_id : Nat} {row : MealRow}
    (h : findMeal db meal_id = some row) : row.id = meal_id := by
  have := List.find?_some h
  exact beq_iff_eq.mp this

/-- C3: `update_meal_stats` with outcome "win" increments the meal's
battles and wins by one, with "loss" increments only battles, with any
other outcome string (on a live row) signals the invalid-result error,
and with a missing or soft-deleted id signals the not-found or
has-been-deleted error. -/
theorem update_meal_stats_spec :
    (∀ (db : DB) (meal_id : Nat) (row : MealRow),
      findMeal db meal_id = some row → row.deleted = false →
      ∃ db2, update_meal_stats db meal_id "win" = .ok db2 ∧
        findMeal db2 meal_id =
          some { row with battles := row.battles + 1, wins := row.wins + 1 }) ∧
    (∀ (db : DB) (meal_id : Nat) (row : MealRow),
      findMeal db meal_id = some row → row.deleted = false →
      ∃ db2, update_meal_stats db meal_id "loss" = .ok db2 ∧
        findMeal db2 meal_id = some { row with battles := row.battles + 1 }) ∧
    (∀ (db : DB) (meal_id : Nat) (row : MealRow) (res : String),
      findMeal db meal_id = some row → row.deleted = false →
      res ≠ "win" → res ≠ "loss" →
      update_meal_stats db meal_id res = .error (.invalidResult res)) ∧
    (∀ (db : DB) (meal_id : Nat) (res : String),
      findMeal db meal_id = none →
      update_meal_stats db meal_id res = .error (.notFound meal_id)) ∧
    (∀ (db : DB) (meal_id : Nat) (row : MealRow) (res : String),
      findMeal db meal_id = some row → row.deleted = true →
      update_meal_stats db meal_id res = .error (.alreadyDeleted meal_id)) := by
  refine ⟨?_, ?_, ?_, ?_, ?_⟩
  · intro db meal_id row hfind hdel
    refine ⟨db.map (incWinRow meal_id), ?_, ?_⟩
    · simp [update_meal_stats, hfind, hdel]
    · rw [findMeal_map db meal_id _ (incWinRow_id meal_id), hfind,
        Option.map_some']
      unfold incWinRow
      rw [if_pos (findMeal_id hfind)]
  · intro db meal_id row hfind hdel
    refine ⟨db.map (incLossRow meal_id), ?_, ?_⟩
    · simp [update_meal_stats, hfind, hdel]
    · rw [findMeal_map db meal_id _ (incLossRow_id meal_id), hfind,
        Option.map_some']
      unfold incLossRow
      rw [if_pos (findMeal_id hfind)]
  · intro db meal_id row res hfind hdel hw hl
    simp [update_meal_stats, hfind, hdel, hw, hl]
  · intro db meal_id res hfind
    simp [update_meal_stats, hfind]
  · intro db meal_id row res hfind hdel
    simp [update_meal_stats, hfind, hdel]

/-- Witness for C3: on a one-row table holding a live row with id 1,
three battles and one win, a "win" yields battles 4 and wins 2, a
"loss" yields battles 4 and wins 1, and the outcome "draw" signals the
invalid-result error. -/
theorem update_meal_stats_spec_witness :
    (∃ db2, update_meal_stats [rowA] 1 "win" = .ok db2 ∧
      findMeal db2 1 = some ⟨1, "alpha", "american", 5, "LOW", false, 4, 2⟩) ∧
    (∃ db2, update_meal_stats [rowA] 1 "loss" = .ok db2 ∧
      findMeal db2 1 = some ⟨1, "alpha", "american", 5, "LOW", false, 4, 1⟩) ∧
    update_meal_stats [rowA] 1 "draw" = .error (.invalidResult "draw") :=
  ⟨update_meal_stats_spec.1 [rowA] 1 rowA rfl rfl,
    update_meal_stats_spec.2.1 [rowA] 1 rowA rfl rfl,
    update_meal_stats_spec.2.2.1 [rowA] 1 rowA "draw" rfl rfl
      (by decide) (by decide)⟩

/-- C10: `update_meal_stats` checks existence and the deleted flag
before validating the outcome string: a missing id signals not-found
for every outcome string, invalid ones such as "draw" included, and a
soft-deleted row signals has-been-deleted for every outcome string. -/
theorem update_meal_stats_check_order :
    (∀ (db : DB) (meal_id : Nat) (res : String),
      findMeal db meal_id = none →
      update_meal_stats db meal_id res = .error (.notFound meal_id)) ∧
    (∀ (db : DB) (meal_id : Nat) (row : MealRow) (res : String),
      findMeal db meal_id = some row → row.deleted = true →
      update_meal_stats db meal_id res = .error (.alreadyDeleted meal_id)) := by
  constructor
  · intro db meal_id res hfind
    simp [update_meal_stats, hfind]
  · intro db meal_id row res hfind hdel
    simp [update_meal_stats, hfind, hdel]

/-- Witness for C10: on the empty table, id 42 with the invalid
outcome "draw" signals not-found, and on a table holding only the
soft-deleted row with id 6, "draw" signals has-been-deleted. -/
theorem update_meal_stats_check_order_witness :
    update_meal_stats [] 42 "draw" = .error (.notFound 42) ∧
    update_meal_stats [rowDel] 6 "draw" = .error (.alreadyDeleted 6) :=
  ⟨update_meal_stats_check_order.1 [] 42 "draw" rfl,
    update_meal_stats_check_order.2 [rowDel] 6 rowDel "draw" rfl rfl⟩

/-- C6: `delete_meal` signals not-found on a missing id, signals
has-been-deleted on a row whose flag is already set, otherwise sets
the flag while retaining the row; deleting the same live id twice
signals has-been-deleted on the second call. -/
theorem delete_meal_spec :
    (∀ (db : DB) (meal_id : Nat), findMeal db meal_id = none →
      delete_meal db meal_id = .error (.notFound meal_id)) ∧
    (∀ (db : DB) (meal_id : Nat) (row : MealRow),
      findMeal db meal_id = some row → row.deleted = true →
      delete_meal db meal_id = .error (.alreadyDeleted meal_id)) ∧
    (∀ (db : DB) (meal_id : Nat) (row : MealRow),
      findMeal db meal_id = some row → row.deleted = false →
      ∃ db2, delete_meal db meal_id = .ok db2 ∧ db2.length = db.length ∧
        findMeal db2 meal_id = some { row with deleted := true }) ∧
    (∀ (db db2 : DB) (meal_id : Nat) (row : MealRow),
      findMeal db meal_id = some row → row.deleted = false →
      delete_meal db meal_id = .ok db2 →
      delete_meal db2 meal_id = .error (.alreadyDeleted meal_id)) := by
  have hstep : ∀ (db : DB) (meal_id : Nat) (row : MealRow),
      findMeal db meal_id = some row → row.deleted = false →
      delete_meal db meal_id = .ok (db.map (markDeletedRow meal_id)) ∧
      findMeal (db.map (markDeletedRow meal_id)) meal_id =
        some { row with deleted := true } := by
    intro db meal_id row hfind hdel
    constructor
    · simp [delete_meal, hfind, hdel]
    · rw [findMeal_map db meal_id _ (markDeletedRow_id meal_id), hfind,
        Option.map_some']
      unfold markDeletedRow
      rw [if_pos (findMeal_id hfind)]
  refine ⟨?_, ?_, ?_, ?_⟩
  · intro db meal_id hfind
    simp [delete_meal, hfind]
  · intro db meal_id row hfind hdel
    simp [delete_meal, hfind, hdel]
  · intro db meal_id row hfind hdel
    obtain ⟨h1, h2⟩ := hstep db meal_id row hfind hdel
    exact ⟨db.map (markDeletedRow meal_id), h1, by simp, h2⟩
  · intro db db2 meal_id row hfind hdel hok
    obtain ⟨h1, h2⟩ := hstep db meal_id row hfind hdel
    rw [h1] at hok
    injection hok with hok
    rw [← hok]
    simp [delete_meal, h2]

/-- Witness for C6: deleting the live row with id 1 once marks it
deleted and keeps the row; deleting it again signals has-been-deleted;
deleting the missing id 42 signals not-found. -/
theorem delete_meal_spec_witness :
    (∃ db2, delete_meal [rowA] 1 = .ok db2 ∧ db2.length = 1 ∧
      findMeal db2 1 = some ⟨1, "alpha", "american", 5, "LOW", true, 3, 1⟩) ∧
    delete_meal [⟨1, "alpha", "american", 5, "LOW", true, 3, 1⟩] 1 =
      .error (.alreadyDeleted 1) ∧
    delete_meal [rowA] 42 = .error (.notFound 42) :=
  ⟨delete_meal_spec.2.2.1 [rowA] 1 rowA rfl rfl,
    delete_meal_spec.2.1 [⟨1, "alpha", "american", 5, "LOW", true, 3, 1⟩] 1
      ⟨1, "alpha", "american", 5, "LOW", true, 3, 1⟩ rfl rfl,
    delete_meal_spec.1 [rowA] 42 rfl⟩

/-- C7: `get_leaderboard` with a sort key outside
{"wins", "win_pct"} signals the invalid-sort error whatever the table
holds; with a valid key it returns exactly the non-deleted rows having
battles > 0 (a permutation of them in annotated form), each annotated
with `round(wins / battles × 100, 1)`, sorted descending on the chosen
key. -/
theorem get_leaderboard_spec :
    (∀ (db : DB) (s : String), s ≠ "wins" → s ≠ "win_pct" →
      get_leaderboard db s = .error (.invalidSortBy s)) ∧
    (∀ db : DB, ∃ l, get_leaderboard db "wins" = .ok l ∧
      l.Perm ((lbRows db).map toEntry) ∧ l.Pairwise byWins) ∧
    (∀ db : DB, ∃ l, get_leaderboard db "win_pct" = .ok l ∧
      l.Perm ((lbRows db).map toEntry) ∧ l.Pairwise byPct) ∧
    (∀ (db : DB) (r : MealRow),
      r ∈ lbRows db ↔ r ∈ db ∧ r.deleted = false ∧ 0 < r.battles) ∧
    (∀ r : MealRow,
      (toEntry r).win_pct = pyRound1 ((r.wins : ℚ) / (r.battles : ℚ) * 100)) := by
  refine ⟨?_, ?_, ?_, ?_, fun r => rfl⟩
  · intro db s h1 h2
    simp [get_leaderboard, h1, h2]
  · intro db
    refine ⟨List.insertionSort byWins ((lbRows db).map toEntry), ?_, ?_, ?_⟩
    · simp [get_leaderboard]
    · exact List.perm_insertionSort byWins _
    · exact List.sorted_insertionSort byWins _
  · intro db
    refine ⟨List.insertionSort byPct ((lbRows db).map toEntry), ?_, ?_, ?_⟩
    · simp [get_leaderboard]
    · exact List.perm_insertionSort byPct _
    · exact List.sorted_insertionSort byPct _
  · intro db r
    simp [lbRows, List.mem_filter]

/-- Witness for C7: the sort key "bogus" signals the invalid-sort
error on the empty table, and on a two-row table the "wins" order
exists, is a permutation of the annotated rows, and is sorted. -/
theorem get_leaderboard_spec_witness :
    get_leaderboard [] "bogus" = .error (.invalidSortBy "bogus") ∧
    (∃ l, get_leaderboard [rowA, rowDel] "wins" = .ok l ∧
      l.Perm ((lbRows [rowA, rowDel]).map toEntry) ∧ l.Pairwise byWins) :=
  ⟨get_leaderboard_spec.1 [] "bogus" (by decide) (by decide),
    get_leaderboard_spec.2.1 [rowA, rowDel]⟩

/-- C8: `create_meal` signals the invalid-price error for a
non-numeric or non-positive price and the invalid-difficulty error for
a difficulty outside {"LOW", "MED", "HIGH"}, in both cases whatever
the table holds (the checks run before any persistence access); on
success it appends a row with battles 0, wins 0 and the deleted flag
unset. -/
theorem create_meal_spec :
    (∀ (db : DB) (m c d : String),
      create_meal db m c none d = .error (.invalidPrice none)) ∧
    (∀ (db : DB) (m c d : String) (p : ℚ), p ≤ 0 →
      create_meal db m c (some p) d = .error (.invalidPrice (some p))) ∧
    (∀ (db : DB) (m c d : String) (p : ℚ), 0 < p →
      d ≠ "LOW" → d ≠ "MED" → d ≠ "HIGH" →
      create_meal db m c (some p) d = .error (.invalidDifficulty d)) ∧
    (∀ (db : DB) (m c d : String) (p : ℚ), 0 < p →
      (d = "LOW" ∨ d = "MED" ∨ d = "HIGH") →
      (∀ r ∈ db, r.meal ≠ m) →
      create_meal db m c (some p) d =
        .ok (db ++ [⟨nextId db, m, c, p, d, false, 0, 0⟩])) := by
  refine ⟨fun db m c d => rfl, ?_, ?_, ?_⟩
  · intro db m c d p hp
    simp [create_meal, hp]
  · intro db m c d p hp h1 h2 h3
    simp [create_meal, not_le.mpr hp, h1, h2, h3]
  · intro db m c d p hp hd hfresh
    have hany : db.any (fun r => r.meal == m) = false := by
      rw [List.any_eq_false]
      intro r hr
      simpa using hfresh r hr
    simp [create_meal, not_le.mpr hp, hd, hany]

/-- Witness for C8: price −1 and price 0 signal the invalid-price
error, difficulty "EASY" signals the invalid-difficulty error, and a
valid creation on the empty table appends `⟨1, …, false, 0, 0⟩`. -/
theorem create_meal_spec_witness :
    create_meal [] "soup" "french" (some (-1)) "LOW" =
      .error (.invalidPrice (some (-1))) ∧
    create_meal [] "soup" "french" (some 0) "LOW" =
      .error (.invalidPrice (some 0)) ∧
    create_meal [] "soup" "french" (some 4) "EASY" =
      .error (.invalidDifficulty "EASY") ∧
    create_meal [] "soup" "french" (some 4) "MED" =
      .ok [⟨1, "soup", "french", 4, "MED", false, 0, 0⟩] :=
  ⟨create_meal_spec.2.1 [] "soup" "french" "LOW" (-1) (by norm_num),
    create_meal_spec.2.1 [] "soup" "french" "LOW" 0 (by norm_num),
    create_meal_spec.2.2.1 [] "soup" "french" "EASY" 4 (by norm_num)
      (by decide) (by decide) (by decide),
    create_meal_spec.2.2.2 [] "soup" "french" "MED" 4 (by norm_num)
      (Or.inr (Or.inl rfl)) (by simp)⟩

/-- C9 (amended): `get_random` signals the distinct timed-out error on
a transport timeout, the request-failed error carrying the cause on
any other transport failure, the invalid-response error carrying the
whitespace-stripped body text when the stripped body does not parse as
a decimal number, and otherwise returns the parsed value. -/
theorem get_random_spec :
    get_random .timeout = .error .timedOut ∧
    (∀ cause : String,
      get_random (.transportError cause) = .error (.requestFailed cause)) ∧
    (∀ (st : Nat) (body : String), st < 400 →
      parseDecimal (pyStrip body) = none →
      get_random (.response st body) =
        .error (.invalidResponse (pyStrip body))) ∧
    (∀ (st : Nat) (body : String) (q : ℚ), st < 400 →
      parseDecimal (pyStrip body) = some q →
      get_random (.response st body) = .ok q) ∧
    (∀ (st : Nat) (body : String), 400 ≤ st →
      get_random (.response st body) =
        .error (.requestFailed ("HTTP error " ++ toString st))) := by
  refine ⟨rfl, fun cause => rfl, ?_, ?_, ?_⟩
  · intro st body hst hparse
    simp [get_random, not_le.mpr hst, hparse]
  · intro st body q hst hparse
    simp [get_random, not_le.mpr hst, hparse]
  · intro st body hst
    simp [get_random, hst]

/-- Witness for C9: a timeout yields the timed-out error, the body
"not a float" yields the invalid-response error carrying that text,
and the body "0.57" parses. -/
theorem get_random_spec_witness :
    get_random .timeout = .error .timedOut ∧
    get_random (.response 200 "not a float") =
      .error (.invalidResponse "not a float") ∧
    get_random (.response 200 "0.57") = .ok (57 / 100) := by
  refine ⟨get_random_spec.1, ?_, ?_⟩
  · exact get_random_spec.2.2.1 200 "not a float" (by norm_num) rfl
  · refine get_random_spec.2.2.2.1 200 "0.57" (57 / 100) (by norm_num) ?_
    have h1 : parseDecimal (pyStrip "0.57") =
        some ((1 : ℚ) * ((digitsVal ['0'] : ℚ) +
          (digitsVal ['5', '7'] : ℚ) / 10 ^ (['5', '7'].length))) := rfl
    have h2 : digitsVal ['0'] = 0 := rfl
    have h3 : digitsVal ['5', '7'] = 57 := rfl
    rw [h1, h2, h3]
    norm_num

/-- Counterexample for C9 as frozen: the invalid-response error does
not carry the raw body text; for the body "abc " (trailing space) it
carries the stripped text "abc" instead. -/
theorem get_random_raw_body_counterexample :
    get_random (.response 200 "abc ") = .error (.invalidResponse "abc") ∧
    get_random (.response 200 "abc ") ≠ .error (.invalidResponse "abc ") := by
  have h : get_random (.response 200 "abc ") =
      .error (.invalidResponse "abc") := rfl
  refine ⟨h, ?_⟩
  rw [h]
  intro hcontra
  injection hcontra with h1
  injection h1 with h2
  exact absurd h2 (by decide)

end MealMax
